import Mathlib

/-!
Verification of the stream-acquisition and event-lifecycle engine of the
moduloIsla repository.

The repository's debounce state machine (`ThermalMonitor.procesar_detecciones`
in `thermal_monitor.py`, duplicated verbatim in `main.py`), its camera reader
loop (`CameraManager._leer_frames_continuamente` and helpers in
`camera_manager.py`), and its evidence pipeline
(`ThermalMonitor.procesar_imagen_con_detecciones` together with
`APIClient.enviar_imagen_con_detecciones`) are embedded shallowly below.

External effects (backend responses, stream reads, upload outcomes) are
supplied as per-step oracle inputs.  Wall-clock time in the camera model is
measured in ticks of one hundredth of a second, so the source's sleeps map to
`time.sleep(10) = 1000`, `time.sleep(5) = 500`, `time.sleep(2) = 200`,
`time.sleep(0.5) = 50`, `time.sleep(0.01) = 1`, and the configured
`timeout_reconexion` is likewise given in ticks.
-/

namespace ModuloIsla

/-! ## Debounce event engine (`thermal_monitor.py`, `procesar_detecciones`) -/

/-- Debounce-relevant configuration fields of `config.py` / `ThermalMonitor`. -/
structure ConfigMonitor where
  umbral_crear_evento : Nat
  umbral_cerrar_evento : Nat
deriving DecidableEq

/-- One processed sample: whether the detection list was non-empty
(`hay_deteccion = len(detecciones) > 0`), and the oracle answer the backend
would give if `api.crear_evento()` were called at this sample
(`none` models a failed creation, `some n` a created event with id `n`). -/
structure Muestra where
  hay_deteccion : Bool
  crear_resp : Option Nat
deriving DecidableEq

/-- The mutable fields of `ThermalMonitor` touched by `procesar_detecciones`. -/
structure EstadoMonitor where
  id_evento_activo : Option Nat
  estado_actual : String
  contador_sin_deteccion : Nat
  contador_con_deteccion : Nat
deriving DecidableEq

/-- Observable effects of one call to `procesar_detecciones`:
whether `api.crear_evento()` was invoked, whether the active event was closed,
and whether evidence was dispatched for this sample. -/
structure SalidaMuestra where
  solicitud_creacion : Bool
  evento_cerrado : Bool
  evidencia_enviada : Bool
deriving DecidableEq

/-- Python truthiness of an optional integer: `None` and `0` are falsy.
Models the source line `if self.id_evento_activo:` after assignment from
`crear_evento`. -/
def esVerdaderoPython : Option Nat → Bool
  | none => false
  | some n => n != 0

/-- Shallow embedding of `ThermalMonitor.procesar_detecciones`
(`thermal_monitor.py` lines 180-219; the copy in `main.py` lines 587-628 has
identical control flow).  Note three features taken from the source verbatim:
the close branch tests `is not None`, the creation branch tests `is None` and
then Python truthiness of the assigned response, and the without-detection
counter resets at the close threshold even when no event is active. -/
def procesar_detecciones (cfg : ConfigMonitor) (s : EstadoMonitor) (m : Muestra) :
    EstadoMonitor × SalidaMuestra :=
  if m.hay_deteccion = false then
    let s1 : EstadoMonitor :=
      { s with contador_con_deteccion := 0,
               contador_sin_deteccion := s.contador_sin_deteccion + 1 }
    if cfg.umbral_cerrar_evento ≤ s1.contador_sin_deteccion then
      if s1.id_evento_activo.isSome then
        ({ s1 with id_evento_activo := none, estado_actual := "sin_deteccion",
                   contador_sin_deteccion := 0 },
         { solicitud_creacion := false, evento_cerrado := true, evidencia_enviada := false })
      else
        ({ s1 with contador_sin_deteccion := 0 },
         { solicitud_creacion := false, evento_cerrado := false, evidencia_enviada := false })
    else
      (s1, { solicitud_creacion := false, evento_cerrado := false, evidencia_enviada := false })
  else
    let s1 : EstadoMonitor :=
      { s with contador_sin_deteccion := 0,
               contador_con_deteccion := s.contador_con_deteccion + 1 }
    if cfg.umbral_crear_evento ≤ s1.contador_con_deteccion then
      if s1.id_evento_activo = none then
        let s2 : EstadoMonitor :=
          if esVerdaderoPython m.crear_resp then
            { s1 with id_evento_activo := m.crear_resp, estado_actual := "evento_activo" }
          else
            { s1 with id_evento_activo := m.crear_resp }
        (s2, { solicitud_creacion := true, evento_cerrado := false,
               evidencia_enviada := s2.id_evento_activo.isSome })
      else
        (s1, { solicitud_creacion := false, evento_cerrado := false,
               evidencia_enviada := s1.id_evento_activo.isSome })
    else
      (s1, { solicitud_creacion := false, evento_cerrado := false,
             evidencia_enviada := s1.id_evento_activo.isSome })

/-- Initial engine state set in `ThermalMonitor.__init__`. -/
def estadoInicial : EstadoMonitor :=
  { id_evento_activo := none, estado_actual := "sin_deteccion",
    contador_sin_deteccion := 0, contador_con_deteccion := 0 }

/-- State after processing a list of samples in order. -/
def correr (cfg : ConfigMonitor) : EstadoMonitor → List Muestra → EstadoMonitor
  | s, [] => s
  | s, m :: ms => correr cfg (procesar_detecciones cfg s m).1 ms

/-- Per-sample observable trace of a run. -/
def traza (cfg : ConfigMonitor) : EstadoMonitor → List Muestra → List SalidaMuestra
  | _, [] => []
  | s, m :: ms =>
    (procesar_detecciones cfg s m).2 :: traza cfg (procesar_detecciones cfg s m).1 ms

/-- Whether some sample of the run invoked `api.crear_evento()`. -/
def algunaSolicitud (cfg : ConfigMonitor) : EstadoMonitor → List Muestra → Bool
  | _, [] => false
  | s, m :: ms =>
    (procesar_detecciones cfg s m).2.solicitud_creacion ||
      algunaSolicitud cfg (procesar_detecciones cfg s m).1 ms

/-- Modelled from the claim text: length of the trailing run of samples with
at least one detection, continuing an inherited run of length `c` ("counted
from the last counter reset"). -/
def racha_desde (c : Nat) (l : List Muestra) : Nat :=
  l.foldl (fun a m => if m.hay_deteccion then a + 1 else 0) c

/-- Modelled from the claim text: length of the trailing run of samples with
zero detections, continuing an inherited run of length `c`. -/
def racha_sin_desde (c : Nat) (l : List Muestra) : Nat :=
  l.foldl (fun a m => if m.hay_deteccion then 0 else a + 1) c

/-- Trailing with-detection run length of a whole prefix. -/
def racha_con_deteccion (l : List Muestra) : Nat := racha_desde 0 l

/-- Trailing zero-detection run length of a whole prefix. -/
def racha_sin_deteccion (l : List Muestra) : Nat := racha_sin_desde 0 l

/-- Modelled from the claim text: some sample of `l` ends a run of at least
`u` consecutive with-detection samples, where `c` detections are inherited
from already-processed samples. -/
def hayRachaCreacion (u : Nat) : Nat → List Muestra → Bool
  | _, [] => false
  | c, m :: ms =>
    if m.hay_deteccion then decide (u ≤ c + 1) || hayRachaCreacion u (c + 1) ms
    else hayRachaCreacion u 0 ms

/-! ### Per-step facts about `procesar_detecciones` -/

lemma paso_contador_con (cfg : ConfigMonitor) (s : EstadoMonitor) (m : Muestra) :
    (procesar_detecciones cfg s m).1.contador_con_deteccion =
      if m.hay_deteccion then s.contador_con_deteccion + 1 else 0 := by
  cases hm : m.hay_deteccion <;> simp [procesar_detecciones, hm] <;>
    (repeat' split) <;> simp_all

lemma paso_solicitud (cfg : ConfigMonitor) (s : EstadoMonitor) (m : Muestra) :
    (procesar_detecciones cfg s m).2.solicitud_creacion = true ↔
      (m.hay_deteccion = true ∧ s.id_evento_activo = none ∧
        cfg.umbral_crear_evento ≤ s.contador_con_deteccion + 1) := by
  cases hm : m.hay_deteccion <;> simp [procesar_detecciones, hm] <;>
    (repeat' split) <;> simp_all

lemma paso_cerrado (cfg : ConfigMonitor) (s : EstadoMonitor) (m : Muestra) :
    (procesar_detecciones cfg s m).2.evento_cerrado = true ↔
      (m.hay_deteccion = false ∧ s.id_evento_activo.isSome = true ∧
        cfg.umbral_cerrar_evento ≤ s.contador_sin_deteccion + 1) := by
  cases hm : m.hay_deteccion <;> simp [procesar_detecciones, hm] <;>
    (repeat' split) <;> simp_all

lemma paso_id_sin_deteccion (cfg : ConfigMonitor) (s : EstadoMonitor) (m : Muestra)
    (hm : m.hay_deteccion = false) (h : s.id_evento_activo = none) :
    (procesar_detecciones cfg s m).1.id_evento_activo = none := by
  simp [procesar_detecciones, hm]
  (repeat' split) <;> simp_all

lemma paso_bajo_umbral (cfg : ConfigMonitor) (s : EstadoMonitor) (m : Muestra)
    (hm : m.hay_deteccion = true) (h : ¬ cfg.umbral_crear_evento ≤ s.contador_con_deteccion + 1) :
    (procesar_detecciones cfg s m).1.id_evento_activo = s.id_evento_activo := by
  simp [procesar_detecciones, hm]
  (repeat' split) <;> simp_all

/-! ### Runs of the debounce machine -/

lemma algunaSolicitud_eq_hayRacha (cfg : ConfigMonitor) :
    ∀ (l : List Muestra) (s : EstadoMonitor), s.id_evento_activo = none →
      algunaSolicitud cfg s l =
        hayRachaCreacion cfg.umbral_crear_evento s.contador_con_deteccion l := by
  intro l
  induction l with
  | nil => intro s _; rfl
  | cons m ms ih =>
    intro s hid
    cases hm : m.hay_deteccion with
    | false =>
      have hsol : (procesar_detecciones cfg s m).2.solicitud_creacion = false := by
        rw [Bool.eq_false_iff]
        intro hcon
        rcases (paso_solicitud cfg s m).mp hcon with ⟨h1, _, _⟩
        rw [hm] at h1; exact Bool.false_ne_true h1
      have hid2 := paso_id_sin_deteccion cfg s m hm hid
      have hcon := paso_contador_con cfg s m
      rw [hm] at hcon; simp only [Bool.false_eq_true, if_false] at hcon
      simp only [algunaSolicitud, hsol, Bool.false_or, hayRachaCreacion, hm,
        Bool.false_eq_true, if_false]
      rw [ih _ hid2, hcon]
    | true =>
      by_cases hu : cfg.umbral_crear_evento ≤ s.contador_con_deteccion + 1
      · have hsol : (procesar_detecciones cfg s m).2.solicitud_creacion = true :=
          (paso_solicitud cfg s m).mpr ⟨hm, hid, hu⟩
        simp only [algunaSolicitud, hsol, Bool.true_or, hayRachaCreacion, hm, if_true,
          decide_eq_true hu, Bool.true_or]
      · have hsol : (procesar_detecciones cfg s m).2.solicitud_creacion = false := by
          rw [Bool.eq_false_iff]
          intro hcon
          exact hu ((paso_solicitud cfg s m).mp hcon).2.2
        have hid2 : (procesar_detecciones cfg s m).1.id_evento_activo = none := by
          rw [paso_bajo_umbral cfg s m hm hu]; exact hid
        have hcon := paso_contador_con cfg s m
        rw [hm] at hcon; simp only [if_true] at hcon
        simp only [algunaSolicitud, hsol, Bool.false_or, hayRachaCreacion, hm, if_true,
          decide_eq_false hu, Bool.false_or]
        rw [ih _ hid2, hcon]

lemma racha_desde_cons (c : Nat) (m : Muestra) (ms : List Muestra) :
    racha_desde c (m :: ms) = racha_desde (if m.hay_deteccion then c + 1 else 0) ms := by
  cases hm : m.hay_deteccion <;> simp [racha_desde, List.foldl_cons, hm]

lemma hayRachaCreacion_iff (u : Nat) (hu : 0 < u) :
    ∀ (l : List Muestra) (c : Nat),
      hayRachaCreacion u c l = true ↔
        ∃ p r, l = p ++ r ∧ p ≠ [] ∧ u ≤ racha_desde c p := by
  intro l
  induction l with
  | nil =>
    intro c
    simp only [hayRachaCreacion, Bool.false_eq_true, false_iff]
    rintro ⟨p, r, hpr, hne, _⟩
    exact hne (List.append_eq_nil.mp hpr.symm).1
  | cons m ms ih =>
    intro c
    cases hm : m.hay_deteccion with
    | true =>
      by_cases hle : u ≤ c + 1
      · simp only [hayRachaCreacion, hm, if_true, decide_eq_true hle, Bool.true_or,
          true_iff]
        refine ⟨[m], ms, rfl, by simp, ?_⟩
        simpa [racha_desde, hm] using hle
      · simp only [hayRachaCreacion, hm, if_true, decide_eq_false hle, Bool.false_or]
        rw [ih (c + 1)]
        constructor
        · rintro ⟨p, r, hpr, hne, hra⟩
          exact ⟨m :: p, r, by simp [hpr], by simp,
            by rw [racha_desde_cons, hm]; simpa using hra⟩
        · rintro ⟨p, r, hpr, hne, hra⟩
          cases p with
          | nil => exact absurd rfl hne
          | cons a p2 =>
            rw [List.cons_append, List.cons.injEq] at hpr
            rw [← hpr.1, racha_desde_cons, hm] at hra
            simp only [if_true] at hra
            cases p2 with
            | nil => exact absurd (by simpa [racha_desde] using hra) hle
            | cons b p3 => exact ⟨b :: p3, r, hpr.2, by simp, hra⟩
    | false =>
      simp only [hayRachaCreacion, hm, Bool.false_eq_true, if_false]
      rw [ih 0]
      constructor
      · rintro ⟨p, r, hpr, hne, hra⟩
        exact ⟨m :: p, r, by simp [hpr], by simp,
          by rw [racha_desde_cons, hm]; simpa using hra⟩
      · rintro ⟨p, r, hpr, hne, hra⟩
        cases p with
        | nil => exact absurd rfl hne
        | cons a p2 =>
          rw [List.cons_append, List.cons.injEq] at hpr
          rw [← hpr.1, racha_desde_cons, hm] at hra
          simp only [Bool.false_eq_true, if_false] at hra
          cases p2 with
          | nil =>
            exfalso
            have h0 : u ≤ 0 := by simpa [racha_desde] using hra
            omega
          | cons b p3 => exact ⟨b :: p3, r, hpr.2, by simp, hra⟩

lemma racha_sin_desde_cons (c : Nat) (m : Muestra) (ms : List Muestra) :
    racha_sin_desde c (m :: ms) =
      racha_sin_desde (if m.hay_deteccion then 0 else c + 1) ms := by
  cases hm : m.hay_deteccion <;> simp [racha_sin_desde, List.foldl_cons, hm]

lemma paso_sin_transfer (cfg : ConfigMonitor) (s : EstadoMonitor) (m : Muestra) (c : Nat)
    (h : s.id_evento_activo.isSome = true → s.contador_sin_deteccion = c) :
    (procesar_detecciones cfg s m).1.id_evento_activo.isSome = true →
    (procesar_detecciones cfg s m).1.contador_sin_deteccion =
      (if m.hay_deteccion then 0 else c + 1) := by
  cases hm : m.hay_deteccion <;> simp [procesar_detecciones, hm] <;>
    (repeat' split) <;> simp_all

/-- While an event is active, `contador_sin_deteccion` equals the length of the
trailing zero-detection run of the processed samples. -/
lemma correr_sin_racha (cfg : ConfigMonitor) :
    ∀ (l : List Muestra) (s : EstadoMonitor) (c : Nat),
      (s.id_evento_activo.isSome = true → s.contador_sin_deteccion = c) →
      (correr cfg s l).id_evento_activo.isSome = true →
      (correr cfg s l).contador_sin_deteccion = racha_sin_desde c l := by
  intro l
  induction l with
  | nil =>
    intro s c h hid
    simpa [correr, racha_sin_desde] using h hid
  | cons m ms ih =>
    intro s c h hid
    rw [correr] at hid ⊢
    rw [racha_sin_desde_cons]
    exact ih _ _ (paso_sin_transfer cfg s m c h) hid

lemma esVerdaderoPython_isSome (r : Option Nat) (h : esVerdaderoPython r = true) :
    r.isSome = true := by
  cases r with
  | none => simp [esVerdaderoPython] at h
  | some n => rfl

lemma paso_inv_fuerte (cfg : ConfigMonitor) (s : EstadoMonitor) (m : Muestra)
    (hm : m.crear_resp ≠ some 0)
    (h : s.estado_actual = "evento_activo" ↔ s.id_evento_activo.isSome = true) :
    ((procesar_detecciones cfg s m).1.estado_actual = "evento_activo" ↔
      (procesar_detecciones cfg s m).1.id_evento_activo.isSome = true) := by
  cases hd : m.hay_deteccion <;> cases hr : m.crear_resp <;>
    simp [procesar_detecciones, hd, hr, esVerdaderoPython] <;>
    (repeat' split) <;> simp_all

lemma paso_inv_debil (cfg : ConfigMonitor) (s : EstadoMonitor) (m : Muestra)
    (h : s.estado_actual = "evento_activo" → s.id_evento_activo.isSome = true) :
    (procesar_detecciones cfg s m).1.estado_actual = "evento_activo" →
      (procesar_detecciones cfg s m).1.id_evento_activo.isSome = true := by
  cases hd : m.hay_deteccion <;> cases hr : m.crear_resp <;>
    simp [procesar_detecciones, hd, hr, esVerdaderoPython] <;>
    (repeat' split) <;> simp_all

lemma correr_inv_fuerte (cfg : ConfigMonitor) :
    ∀ (l : List Muestra) (s : EstadoMonitor),
      (∀ m ∈ l, m.crear_resp ≠ some 0) →
      (s.estado_actual = "evento_activo" ↔ s.id_evento_activo.isSome = true) →
      ((correr cfg s l).estado_actual = "evento_activo" ↔
        (correr cfg s l).id_evento_activo.isSome = true) := by
  intro l
  induction l with
  | nil => intro s _ h; exact h
  | cons m ms ih =>
    intro s hall h
    rw [correr]
    exact ih _ (fun x hx => hall x (List.mem_cons_of_mem m hx))
      (paso_inv_fuerte cfg s m (hall m (List.mem_cons_self m ms)) h)

lemma correr_inv_debil (cfg : ConfigMonitor) :
    ∀ (l : List Muestra) (s : EstadoMonitor),
      (s.estado_actual = "evento_activo" → s.id_evento_activo.isSome = true) →
      (correr cfg s l).estado_actual = "evento_activo" →
        (correr cfg s l).id_evento_activo.isSome = true := by
  intro l
  induction l with
  | nil => intro s h; exact h
  | cons m ms ih =>
    intro s h
    rw [correr]
    exact ih _ (paso_inv_debil cfg s m h)

lemma racha_sin_desde_append_single (c : Nat) (p : List Muestra) (m : Muestra) :
    racha_sin_desde c (p ++ [m]) =
      if m.hay_deteccion then 0 else racha_sin_desde c p + 1 := by
  cases hm : m.hay_deteccion <;> simp [racha_sin_desde, List.foldl_append, hm]

/-! ### Claim theorems for the debounce machine -/

/-- Claim C1: starting from the initial state, a creation request to the
backend is issued during a run exactly when some processed prefix ends with at
least `umbral_crear_evento` consecutive with-detection samples (counted from
the last counter reset); scenario: with threshold 3, two no-detection samples
followed by three detection samples request creation on the third detection
sample and not before. -/
theorem creacion_evento_sii_racha (cfg : ConfigMonitor) (l : List Muestra)
    (hu : 0 < cfg.umbral_crear_evento) :
    (algunaSolicitud cfg estadoInicial l = true ↔
      ∃ p r, l = p ++ r ∧ p ≠ [] ∧ cfg.umbral_crear_evento ≤ racha_con_deteccion p) ∧
    (traza ⟨3, 5⟩ estadoInicial
        [⟨false, none⟩, ⟨false, none⟩, ⟨true, some 1⟩, ⟨true, some 1⟩,
          ⟨true, some 1⟩]).map (fun o => o.solicitud_creacion) =
      [false, false, false, false, true] := by
  constructor
  · rw [algunaSolicitud_eq_hayRacha cfg l estadoInicial rfl]
    simpa [racha_con_deteccion, estadoInicial] using
      hayRachaCreacion_iff cfg.umbral_crear_evento hu l 0
  · decide

theorem creacion_evento_sii_racha_testigo :
    0 < (3 : Nat) ∧
      (algunaSolicitud ⟨3, 5⟩ estadoInicial
          [⟨false, none⟩, ⟨false, none⟩, ⟨true, some 1⟩, ⟨true, some 1⟩,
            ⟨true, some 1⟩] = true ↔
        ∃ p r,
          [(⟨false, none⟩ : Muestra), ⟨false, none⟩, ⟨true, some 1⟩, ⟨true, some 1⟩,
            ⟨true, some 1⟩] = p ++ r ∧ p ≠ [] ∧ 3 ≤ racha_con_deteccion p) :=
  ⟨by decide,
    (creacion_evento_sii_racha ⟨3, 5⟩
      [⟨false, none⟩, ⟨false, none⟩, ⟨true, some 1⟩, ⟨true, some 1⟩, ⟨true, some 1⟩]
      (by decide)).1⟩

/-- Claim C2 is false on the code: with threshold 3, an uninterrupted run of
four detection samples whose first creation attempt fails produces a second
creation request on the fourth sample, with no intervening no-detection
sample; the fourth request succeeds and the event becomes active. -/
theorem reintento_creacion_contraejemplo :
    ([(⟨true, none⟩ : Muestra), ⟨true, none⟩, ⟨true, none⟩, ⟨true, some 7⟩].all
        (fun m => m.hay_deteccion)) = true ∧
    (traza ⟨3, 5⟩ estadoInicial
        [⟨true, none⟩, ⟨true, none⟩, ⟨true, none⟩, ⟨true, some 7⟩]).map
      (fun o => o.solicitud_creacion) = [false, false, true, true] ∧
    (correr ⟨3, 5⟩ estadoInicial
        [⟨true, none⟩, ⟨true, none⟩, ⟨true, none⟩, ⟨true, some 7⟩]).id_evento_activo =
      some 7 := by
  decide

/-- Claim C2 amended: if a creation attempt fails, the engine keeps no active
event, but the with-detection counter is not reset, so creation is re-attempted
on the very next detection sample of the same streak; no no-detection reset is
required before the retry. -/
theorem reintento_creacion_en_racha (cfg : ConfigMonitor) (s : EstadoMonitor)
    (m m2 : Muestra) (h1 : s.id_evento_activo = none) (h2 : m.hay_deteccion = true)
    (h3 : cfg.umbral_crear_evento ≤ s.contador_con_deteccion + 1)
    (h4 : m.crear_resp = none) (h5 : m2.hay_deteccion = true) :
    (procesar_detecciones cfg s m).2.solicitud_creacion = true ∧
    (procesar_detecciones cfg s m).1.id_evento_activo = none ∧
    (procesar_detecciones cfg (procesar_detecciones cfg s m).1 m2).2.solicitud_creacion =
      true := by
  have hsol := (paso_solicitud cfg s m).mpr ⟨h2, h1, h3⟩
  have hid : (procesar_detecciones cfg s m).1.id_evento_activo = none := by
    simp [procesar_detecciones, h2, h1, h3, h4, esVerdaderoPython]
  have hcon : (procesar_detecciones cfg s m).1.contador_con_deteccion =
      s.contador_con_deteccion + 1 := by
    rw [paso_contador_con, h2]; simp
  exact ⟨hsol, hid,
    (paso_solicitud cfg _ m2).mpr ⟨h5, hid, by rw [hcon]; omega⟩⟩

theorem reintento_creacion_en_racha_testigo :
    (procesar_detecciones ⟨3, 5⟩ ⟨none, "sin_deteccion", 0, 2⟩ ⟨true, none⟩).2.solicitud_creacion = true ∧
    (procesar_detecciones ⟨3, 5⟩ ⟨none, "sin_deteccion", 0, 2⟩ ⟨true, none⟩).1.id_evento_activo = none ∧
    (procesar_detecciones ⟨3, 5⟩
      (procesar_detecciones ⟨3, 5⟩ ⟨none, "sin_deteccion", 0, 2⟩ ⟨true, none⟩).1
      ⟨true, some 4⟩).2.solicitud_creacion = true :=
  reintento_creacion_en_racha ⟨3, 5⟩ ⟨none, "sin_deteccion", 0, 2⟩ ⟨true, none⟩
    ⟨true, some 4⟩ rfl rfl (by decide) rfl rfl

/-- Claim C3: at any reachable state, processing one more sample closes the
active event exactly when an event is active, the sample has zero detections,
and the trailing zero-detection run (sample included) reaches
`umbral_cerrar_evento`; scenario: with close threshold 5 and an active event,
five consecutive no-detection samples close the event exactly on the fifth,
clearing the id. -/
theorem cierre_evento_sii_racha (cfg : ConfigMonitor) (p : List Muestra) (m : Muestra) :
    ((procesar_detecciones cfg (correr cfg estadoInicial p) m).2.evento_cerrado = true ↔
      ((correr cfg estadoInicial p).id_evento_activo.isSome = true ∧
        m.hay_deteccion = false ∧
        cfg.umbral_cerrar_evento ≤ racha_sin_deteccion (p ++ [m]))) ∧
    ((traza ⟨3, 5⟩ estadoInicial
        [⟨true, some 1⟩, ⟨true, some 1⟩, ⟨true, some 1⟩, ⟨false, none⟩, ⟨false, none⟩,
          ⟨false, none⟩, ⟨false, none⟩, ⟨false, none⟩]).map (fun o => o.evento_cerrado) =
        [false, false, false, false, false, false, false, true] ∧
      (correr ⟨3, 5⟩ estadoInicial
        [⟨true, some 1⟩, ⟨true, some 1⟩, ⟨true, some 1⟩, ⟨false, none⟩, ⟨false, none⟩,
          ⟨false, none⟩, ⟨false, none⟩, ⟨false, none⟩]).id_evento_activo = none ∧
      (correr ⟨3, 5⟩ estadoInicial
        [⟨true, some 1⟩, ⟨true, some 1⟩, ⟨true, some 1⟩, ⟨false, none⟩, ⟨false, none⟩,
          ⟨false, none⟩, ⟨false, none⟩, ⟨false, none⟩]).estado_actual = "sin_deteccion") := by
  constructor
  · rw [paso_cerrado]
    constructor
    · rintro ⟨hm, hs, hle⟩
      refine ⟨hs, hm, ?_⟩
      have hsin := correr_sin_racha cfg p estadoInicial 0 (fun _ => rfl) hs
      rw [racha_sin_deteccion, racha_sin_desde_append_single, hm]
      simp only [Bool.false_eq_true, if_false]
      omega
    · rintro ⟨hs, hm, hle⟩
      refine ⟨hm, hs, ?_⟩
      have hsin := correr_sin_racha cfg p estadoInicial 0 (fun _ => rfl) hs
      rw [racha_sin_deteccion, racha_sin_desde_append_single, hm] at hle
      simp only [Bool.false_eq_true, if_false] at hle
      omega
  · decide

/-- Claim C8 is false as stated for every backend id value: when
`crear_evento` returns id `0`, Python truthiness leaves the state
`sin_deteccion` while `id_evento_activo` is set to `0`, so the run below
reaches a state where the id is set but the machine is not in
`evento_activo`. -/
theorem invariante_estado_id_contraejemplo :
    (correr ⟨3, 5⟩ estadoInicial
        [⟨true, some 0⟩, ⟨true, some 0⟩, ⟨true, some 0⟩]).id_evento_activo = some 0 ∧
    (correr ⟨3, 5⟩ estadoInicial
        [⟨true, some 0⟩, ⟨true, some 0⟩, ⟨true, some 0⟩]).estado_actual = "sin_deteccion" ∧
    (traza ⟨3, 5⟩ estadoInicial
        [⟨true, some 0⟩, ⟨true, some 0⟩, ⟨true, some 0⟩]).map
      (fun o => o.solicitud_creacion) = [false, false, true] := by
  decide

/-- Claim C8 amended: at every reachable state, `estado_actual = evento_activo`
implies the id is set; and provided every id the backend returns at creation
is nonzero (Python-truthy), the state is `evento_activo` exactly when the id
is set. -/
theorem invariante_estado_id (cfg : ConfigMonitor) (l : List Muestra) :
    ((correr cfg estadoInicial l).estado_actual = "evento_activo" →
      (correr cfg estadoInicial l).id_evento_activo.isSome = true) ∧
    ((∀ m ∈ l, m.crear_resp ≠ some 0) →
      ((correr cfg estadoInicial l).estado_actual = "evento_activo" ↔
        (correr cfg estadoInicial l).id_evento_activo.isSome = true)) := by
  constructor
  · exact correr_inv_debil cfg l estadoInicial (by intro h; simp [estadoInicial] at h)
  · intro hall
    exact correr_inv_fuerte cfg l estadoInicial hall (by simp [estadoInicial])

theorem invariante_estado_id_testigo :
    (∀ m ∈ [(⟨true, some 2⟩ : Muestra), ⟨true, some 2⟩, ⟨true, some 2⟩],
      m.crear_resp ≠ some 0) ∧
    ((correr ⟨3, 5⟩ estadoInicial
        [⟨true, some 2⟩, ⟨true, some 2⟩, ⟨true, some 2⟩]).estado_actual = "evento_activo" ↔
      (correr ⟨3, 5⟩ estadoInicial
        [⟨true, some 2⟩, ⟨true, some 2⟩, ⟨true, some 2⟩]).id_evento_activo.isSome = true) :=
  ⟨by simp,
    (invariante_estado_id ⟨3, 5⟩
      [⟨true, some 2⟩, ⟨true, some 2⟩, ⟨true, some 2⟩]).2 (by simp)⟩

/-- Claim C9 is false on the code: after the creating transition (threshold 3,
three detection samples, creation succeeds) the machine is in `evento_activo`
but `contador_con_deteccion` is 3, not 0 - the with-detection counter is not
reset on the creating transition. -/
theorem contadores_reinicio_contraejemplo :
    (correr ⟨3, 5⟩ estadoInicial
        [⟨true, some 1⟩, ⟨true, some 1⟩, ⟨true, some 1⟩]).estado_actual = "evento_activo" ∧
    (correr ⟨3, 5⟩ estadoInicial
        [⟨true, some 1⟩, ⟨true, some 1⟩, ⟨true, some 1⟩]).contador_con_deteccion = 3 := by
  decide

/-- Claim C9 amended: on the closing transition both counters end at 0; on a
sample that issues a creation request the without-detection counter ends at 0,
while the with-detection counter keeps its accumulated value (it grows by one
and is only ever reset by a no-detection sample). -/
theorem contadores_reinicio (cfg : ConfigMonitor) (s : EstadoMonitor) (m : Muestra) :
    ((procesar_detecciones cfg s m).2.evento_cerrado = true →
      (procesar_detecciones cfg s m).1.contador_sin_deteccion = 0 ∧
      (procesar_detecciones cfg s m).1.contador_con_deteccion = 0) ∧
    ((procesar_detecciones cfg s m).2.solicitud_creacion = true →
      (procesar_detecciones cfg s m).1.contador_sin_deteccion = 0 ∧
      (procesar_detecciones cfg s m).1.contador_con_deteccion =
        s.contador_con_deteccion + 1) := by
  constructor
  · intro h
    rcases (paso_cerrado cfg s m).mp h with ⟨hm, hs, hle⟩
    constructor <;> simp [procesar_detecciones, hm, hs, hle]
  · intro h
    rcases (paso_solicitud cfg s m).mp h with ⟨hm, hid, hle⟩
    constructor
    · simp [procesar_detecciones, hm]
      (repeat' split) <;> simp_all
    · rw [paso_contador_con, hm]; simp

theorem contadores_reinicio_testigo :
    (procesar_detecciones ⟨3, 5⟩ ⟨some 4, "evento_activo", 4, 0⟩
        ⟨false, none⟩).2.evento_cerrado = true ∧
    ((procesar_detecciones ⟨3, 5⟩ ⟨some 4, "evento_activo", 4, 0⟩
        ⟨false, none⟩).1.contador_sin_deteccion = 0 ∧
      (procesar_detecciones ⟨3, 5⟩ ⟨some 4, "evento_activo", 4, 0⟩
        ⟨false, none⟩).1.contador_con_deteccion = 0) :=
  ⟨by decide,
    (contadores_reinicio ⟨3, 5⟩ ⟨some 4, "evento_activo", 4, 0⟩ ⟨false, none⟩).1
      (by decide)⟩

/-! ## Camera reader (`camera_manager.py`)

Time is counted in ticks of a hundredth of a second; only `time.sleep` calls
advance the clock.  Frames are abstracted to natural numbers; stream health,
read results and reconnection outcomes are supplied per iteration by an
environment record. -/

/-- Constructor arguments of `CameraManager` relevant to the reader loop;
`timeout_reconexion` is in ticks. -/
structure ConfigCamara where
  max_errores_consecutivos : Nat
  timeout_reconexion : Nat
deriving DecidableEq

/-- The mutable fields of `CameraManager` used by the reader loop, plus the
model clock. -/
structure EstadoCamara where
  capAbierta : Bool
  frame_actual : Option Nat
  errores_consecutivos : Nat
  ultima_reconexion : Nat
  reloj : Nat
deriving DecidableEq

/-- Oracle inputs consumed by one iteration of `_leer_frames_continuamente`:
the operating-hours callback result, whether the open handle reports valid
dimensions, whether `cap.read()` yields a valid non-empty frame (and which),
and whether a reconnection performed this iteration would succeed. -/
structure EntornoIteracion where
  en_horario : Bool
  dims_validas : Bool
  lectura_ok : Bool
  frame : Nat
  reconexion_ok : Bool
deriving DecidableEq

/-- Observables of one loop iteration: clock times at which `inicializar` was
invoked to re-open the stream, whether a steady-state `cap.read()` was
attempted, and the frame copied into the shared slot, if any. -/
structure SalidaIteracion where
  intentos_reconexion : List Nat
  lectura_intentada : Bool
  frame_escrito : Option Nat
deriving DecidableEq

/-- Shallow embedding of `CameraManager.inicializar` (lines 43-94): release
any prior handle, wait out the 2-second cool-down since the last successful
reconnection, then either re-open successfully (resetting the error counter
and recording the reconnect timestamp) or fail with the handle closed.  The
probe frame read inside `inicializar` does not touch `frame_actual`. -/
def inicializar (s : EstadoCamara) (exito : Bool) : EstadoCamara × Bool :=
  let s0 : EstadoCamara := { s with capAbierta := false }
  let s1 : EstadoCamara :=
    if s0.reloj - s0.ultima_reconexion < 200 then
      { s0 with reloj := s0.ultima_reconexion + 200 }
    else s0
  if exito then
    ({ s1 with capAbierta := true, ultima_reconexion := s1.reloj,
               errores_consecutivos := 0 }, true)
  else
    (s1, false)

/-- Shallow embedding of `CameraManager._intentar_reconexion` (lines 114-136):
sleep the remaining deficit relative to `ultima_reconexion` when less than
`timeout_reconexion` has elapsed, then call `inicializar`; the third component
records the clock time at which `inicializar` was invoked. -/
def intentarReconexion (cfg : ConfigCamara) (s : EstadoCamara) (exito : Bool) :
    EstadoCamara × Bool × Nat :=
  let s1 : EstadoCamara :=
    if s.reloj - s.ultima_reconexion < cfg.timeout_reconexion then
      { s with reloj := s.ultima_reconexion + cfg.timeout_reconexion }
    else s
  let r := inicializar s1 exito
  (r.1, r.2, s1.reloj)

/-- Shallow embedding of one iteration of
`CameraManager._leer_frames_continuamente` (lines 142-189, exception branch
excluded): outside operating hours sleep 10s; on an unhealthy stream attempt a
reconnection (failure adds one error and sleeps 5s, both paths `continue`);
otherwise read one frame - success stores a copy in the shared slot and resets
the error counter, failure increments it and either forces a reconnection at
the `max_errores_consecutivos` threshold or backs off 0.5s; the steady-state
paths end with the 0.01s loop delay. -/
def iteracionLectura (cfg : ConfigCamara) (s : EstadoCamara) (e : EntornoIteracion) :
    EstadoCamara × SalidaIteracion :=
  if e.en_horario = false then
    ({ s with reloj := s.reloj + 1000 },
     { intentos_reconexion := [], lectura_intentada := false, frame_escrito := none })
  else if (s.capAbierta && e.dims_validas) = false then
    let r := intentarReconexion cfg s e.reconexion_ok
    if r.2.1 then
      ({ r.1 with errores_consecutivos := 0 },
       { intentos_reconexion := [r.2.2], lectura_intentada := false, frame_escrito := none })
    else
      ({ r.1 with errores_consecutivos := r.1.errores_consecutivos + 1,
                  reloj := r.1.reloj + 500 },
       { intentos_reconexion := [r.2.2], lectura_intentada := false, frame_escrito := none })
  else if e.lectura_ok then
    ({ s with frame_actual := some e.frame, errores_consecutivos := 0,
              reloj := s.reloj + 1 },
     { intentos_reconexion := [], lectura_intentada := true, frame_escrito := some e.frame })
  else
    let s1 : EstadoCamara := { s with errores_consecutivos := s.errores_consecutivos + 1 }
    if cfg.max_errores_consecutivos ≤ s1.errores_consecutivos then
      let r := intentarReconexion cfg s1 e.reconexion_ok
      if r.2.1 then
        ({ r.1 with errores_consecutivos := 0, reloj := r.1.reloj + 1 },
         { intentos_reconexion := [r.2.2], lectura_intentada := true, frame_escrito := none })
      else
        ({ r.1 with reloj := r.1.reloj + 500 + 1 },
         { intentos_reconexion := [r.2.2], lectura_intentada := true, frame_escrito := none })
    else
      ({ s1 with reloj := s1.reloj + 50 + 1 },
       { intentos_reconexion := [], lectura_intentada := true, frame_escrito := none })

/-- State after running the reader loop over a list of iteration inputs. -/
def correrLectura (cfg : ConfigCamara) : EstadoCamara → List EntornoIteracion → EstadoCamara
  | s, [] => s
  | s, e :: es => correrLectura cfg (iteracionLectura cfg s e).1 es

/-- Per-iteration observable trace of a reader run. -/
def trazaLectura (cfg : ConfigCamara) :
    EstadoCamara → List EntornoIteracion → List SalidaIteracion
  | _, [] => []
  | s, e :: es =>
    (iteracionLectura cfg s e).2 :: trazaLectura cfg (iteracionLectura cfg s e).1 es

/-- Clock times of every `inicializar` re-open performed during a run. -/
def tiemposReconexion (cfg : ConfigCamara) (s : EstadoCamara)
    (es : List EntornoIteracion) : List Nat :=
  (trazaLectura cfg s es).foldr (fun o acc => o.intentos_reconexion ++ acc) []

/-- Shallow embedding of `CameraManager.obtener_frame` (lines 228-235): under
the frame lock, return a copy of the shared slot, or nothing when it was never
populated.  It inspects only the current state and performs no sleep. -/
def obtener_frame (s : EstadoCamara) : Option Nat := s.frame_actual

/-- Shallow embedding of `CameraManager.liberar` (lines 237-249): stop the
reader thread and release the capture handle; `frame_actual` is not touched. -/
def liberar (s : EstadoCamara) : EstadoCamara := { s with capAbierta := false }

/-- Camera state as constructed by `CameraManager.__init__`. -/
def estadoCamaraInicial : EstadoCamara :=
  { capAbierta := false, frame_actual := none, errores_consecutivos := 0,
    ultima_reconexion := 0, reloj := 0 }

/-- Camera state right after a successful initial `inicializar` at time 0. -/
def estadoConectado : EstadoCamara :=
  { capAbierta := true, frame_actual := none, errores_consecutivos := 0,
    ultima_reconexion := 0, reloj := 0 }

/-- Modelled from the claim text: the frame most recently written into the
shared slot along a trace, starting from the slot content `inicial`. -/
def frameFinal (inicial : Option Nat) (tr : List SalidaIteracion) : Option Nat :=
  tr.foldl
    (fun acc o => match o.frame_escrito with
      | some f => some f
      | none => acc)
    inicial

/-! ### Facts about the reader loop -/

lemma inicializar_frame (s : EstadoCamara) (exito : Bool) :
    (inicializar s exito).1.frame_actual = s.frame_actual := by
  simp only [inicializar]
  (repeat' split) <;> rfl

lemma intentarReconexion_frame (cfg : ConfigCamara) (s : EstadoCamara) (exito : Bool) :
    (intentarReconexion cfg s exito).1.frame_actual = s.frame_actual := by
  simp only [intentarReconexion]
  rw [inicializar_frame]
  split <;> rfl

lemma iteracion_frame (cfg : ConfigCamara) (s : EstadoCamara) (e : EntornoIteracion) :
    (iteracionLectura cfg s e).1.frame_actual =
      (match (iteracionLectura cfg s e).2.frame_escrito with
        | some f => some f
        | none => s.frame_actual) := by
  simp only [iteracionLectura]
  (repeat' split) <;> simp_all [intentarReconexion_frame]

/-- Claim C7: `obtener_frame` returns exactly the frame most recently copied
into the shared slot by a successful read of the run, and nothing when the
slot was never populated; it is a pure observation of the state (the model
performs no sleep in it). -/
theorem obtener_frame_mas_reciente (cfg : ConfigCamara) (es : List EntornoIteracion) :
    obtener_frame (correrLectura cfg estadoCamaraInicial es) =
      frameFinal none (trazaLectura cfg estadoCamaraInicial es) := by
  have general : ∀ (l : List EntornoIteracion) (s : EstadoCamara),
      obtener_frame (correrLectura cfg s l) =
        frameFinal s.frame_actual (trazaLectura cfg s l) := by
    intro l
    induction l with
    | nil => intro s; rfl
    | cons e es2 ih =>
      intro s
      rw [correrLectura, trazaLectura]
      rw [ih]
      have hframe := iteracion_frame cfg s e
      cases hesc : (iteracionLectura cfg s e).2.frame_escrito with
      | none => rw [hesc] at hframe; simp [frameFinal, hesc, hframe]
      | some f => rw [hesc] at hframe; simp [frameFinal, hesc, hframe]
  exact general es estadoCamaraInicial

lemma iteracion_frame_conserva (cfg : ConfigCamara) (s : EstadoCamara)
    (e : EntornoIteracion) (h : s.frame_actual.isSome = true) :
    ((iteracionLectura cfg s e).1.frame_actual).isSome = true := by
  rw [iteracion_frame]
  cases hesc : (iteracionLectura cfg s e).2.frame_escrito with
  | none => simpa using h
  | some f => simp

/-- Claim C10: once the shared frame slot holds a frame, no further iterations
of the reader loop (including read failures and failed reconnections) and no
call to `liberar` ever clear it, so `obtener_frame` keeps serving a frame for
the rest of the run. -/
theorem frame_nunca_borrado (cfg : ConfigCamara) (s : EstadoCamara)
    (es : List EntornoIteracion) (h : s.frame_actual.isSome = true) :
    (obtener_frame (correrLectura cfg s es)).isSome = true ∧
    obtener_frame (liberar (correrLectura cfg s es)) =
      obtener_frame (correrLectura cfg s es) := by
  refine ⟨?_, rfl⟩
  induction es generalizing s with
  | nil => exact h
  | cons e es2 ih =>
    rw [correrLectura]
    exact ih _ (iteracion_frame_conserva cfg s e h)

theorem frame_nunca_borrado_testigo :
    (⟨true, some 9, 0, 0, 0⟩ : EstadoCamara).frame_actual.isSome = true ∧
    ((obtener_frame (correrLectura ⟨5, 1000⟩ ⟨true, some 9, 0, 0, 0⟩
        (List.replicate 6 ⟨true, true, false, 0, false⟩))).isSome = true ∧
      obtener_frame (liberar (correrLectura ⟨5, 1000⟩ ⟨true, some 9, 0, 0, 0⟩
        (List.replicate 6 ⟨true, true, false, 0, false⟩))) =
        obtener_frame (correrLectura ⟨5, 1000⟩ ⟨true, some 9, 0, 0, 0⟩
          (List.replicate 6 ⟨true, true, false, 0, false⟩))) :=
  ⟨by decide,
    frame_nunca_borrado ⟨5, 1000⟩ ⟨true, some 9, 0, 0, 0⟩
      (List.replicate 6 ⟨true, true, false, 0, false⟩) (by decide)⟩

/-- Claim C5: an in-hours iteration with a healthy stream and a failed read
makes exactly one reconnection attempt when the error counter reaches
`max_errores_consecutivos`, and none while it is still below the threshold;
scenario with threshold 5: five consecutive failed reads produce exactly one
reconnection attempt, on the fifth failure, and the next read attempt (the
sixth iteration) is preceded by no further attempt. -/
theorem reconexion_unica_al_umbral :
    (∀ (cfg : ConfigCamara) (s : EstadoCamara) (e : EntornoIteracion),
      e.en_horario = true → s.capAbierta = true → e.dims_validas = true →
      e.lectura_ok = false →
      cfg.max_errores_consecutivos ≤ s.errores_consecutivos + 1 →
      (iteracionLectura cfg s e).2.intentos_reconexion.length = 1 ∧
      (iteracionLectura cfg s e).2.lectura_intentada = true) ∧
    (∀ (cfg : ConfigCamara) (s : EstadoCamara) (e : EntornoIteracion),
      e.en_horario = true → s.capAbierta = true → e.dims_validas = true →
      e.lectura_ok = false →
      s.errores_consecutivos + 1 < cfg.max_errores_consecutivos →
      (iteracionLectura cfg s e).2.intentos_reconexion = []) ∧
    ((trazaLectura ⟨5, 1000⟩ estadoConectado
        (List.replicate 5 ⟨true, true, false, 0, true⟩ ++
          [⟨true, true, true, 42, true⟩])).map
      (fun o => o.intentos_reconexion.length) = [0, 0, 0, 0, 1, 0] ∧
     (trazaLectura ⟨5, 1000⟩ estadoConectado
        (List.replicate 5 ⟨true, true, false, 0, true⟩ ++
          [⟨true, true, true, 42, true⟩])).map
      (fun o => o.lectura_intentada) = [true, true, true, true, true, true] ∧
     (trazaLectura ⟨5, 1000⟩ estadoConectado
        (List.replicate 5 ⟨true, true, false, 0, true⟩ ++
          [⟨true, true, true, 42, true⟩])).map
      (fun o => o.frame_escrito) = [none, none, none, none, none, some 42]) := by
  refine ⟨?_, ?_, by decide⟩
  · intro cfg s e h1 h2 h3 h4 h5
    simp [iteracionLectura, h1, h2, h3, h4, h5]
    split <;> simp
  · intro cfg s e h1 h2 h3 h4 h5
    have h6 : ¬ cfg.max_errores_consecutivos ≤ s.errores_consecutivos + 1 := by omega
    simp [iteracionLectura, h1, h2, h3, h4, h6]

theorem reconexion_unica_al_umbral_testigo :
    (iteracionLectura ⟨5, 1000⟩ ⟨true, none, 4, 0, 204⟩
        ⟨true, true, false, 0, true⟩).2.intentos_reconexion.length = 1 ∧
    (iteracionLectura ⟨5, 1000⟩ ⟨true, none, 4, 0, 204⟩
        ⟨true, true, false, 0, true⟩).2.lectura_intentada = true :=
  reconexion_unica_al_umbral.1 ⟨5, 1000⟩ ⟨true, none, 4, 0, 204⟩
    ⟨true, true, false, 0, true⟩ rfl rfl rfl rfl (by decide)

/-- Claim C6 is false on the code: spacing is enforced only relative to the
last successful reconnection (`ultima_reconexion` is updated only on success),
so after a failed attempt the next attempt follows about 5 seconds later.
Concretely, with `timeout_reconexion` of 1000 ticks (10s), five failed reads
from a fresh connection force an attempt at tick 1000; it fails, and the next
iteration attempts again at tick 1501, only 501 ticks (5.01s) later. -/
theorem separacion_reconexiones_contraejemplo :
    tiemposReconexion ⟨5, 1000⟩ estadoConectado
        (List.replicate 6 ⟨true, true, false, 0, false⟩) = [1000, 1501] ∧
    1501 - 1000 < (1000 : Nat) := by
  decide

/-- Claim C6 amended: every reconnection attempt re-opens the stream at least
`timeout_reconexion` ticks after the last successful reconnection recorded in
`ultima_reconexion` - `_intentar_reconexion` sleeps the remaining deficit
relative to that timestamp - but consecutive failed attempts carry no such
spacing between each other. -/
theorem reconexion_tras_ultima_exitosa (cfg : ConfigCamara) (s : EstadoCamara)
    (exito : Bool) (h : s.ultima_reconexion ≤ s.reloj) :
    s.ultima_reconexion + cfg.timeout_reconexion ≤
      (intentarReconexion cfg s exito).2.2 := by
  simp only [intentarReconexion]
  split
  · simp
  · rename_i h2
    simp only [not_lt] at h2
    omega

theorem reconexion_tras_ultima_exitosa_testigo :
    (⟨true, none, 4, 0, 50⟩ : EstadoCamara).ultima_reconexion ≤
      (⟨true, none, 4, 0, 50⟩ : EstadoCamara).reloj ∧
    (⟨true, none, 4, 0, 50⟩ : EstadoCamara).ultima_reconexion +
        (⟨5, 1000⟩ : ConfigCamara).timeout_reconexion ≤
      (intentarReconexion ⟨5, 1000⟩ ⟨true, none, 4, 0, 50⟩ false).2.2 :=
  ⟨by decide, reconexion_tras_ultima_exitosa ⟨5, 1000⟩ ⟨true, none, 4, 0, 50⟩ false
    (by decide)⟩

/-! ## Evidence pipeline (`thermal_monitor.py` lines 130-178,
`api_client.py` lines 108-144, `azure_storage.py` lines 25-54) -/

/-- Oracle outcomes for one evidence task: whether `guardar_frame_temporal`
returns a path, whether `azure.subir_imagen` returns a URL (HTTP 201), whether
the backend image POST returns 201, and whether `os.remove` succeeds. -/
structure EntornoEvidencia where
  guardado_ok : Bool
  subida_ok : Bool
  envio_ok : Bool
  eliminacion_ok : Bool
deriving DecidableEq

/-- Outcome record of one evidence task: which steps ran, and whether the
local temporary file is still on disk when the task finishes. -/
structure ResultadoEvidencia where
  archivo_guardado : Bool
  subida_intentada : Bool
  envio_intentado : Bool
  eliminacion_intentada : Bool
  archivo_en_disco : Bool
deriving DecidableEq

/-- Shallow embedding of `ThermalMonitor.procesar_imagen_con_detecciones`
composed with the worker of `APIClient.enviar_imagen_con_detecciones`: save
the frame (abort on failure, no file exists), upload to Azure (abort on
failure, file left on disk), POST to the backend (abort on failure, file left
on disk), and on a 201 response run the deletion callback, whose own failure
is logged as a non-fatal warning with the file left on disk. -/
def procesar_imagen_con_detecciones (e : EntornoEvidencia) : ResultadoEvidencia :=
  if e.guardado_ok = false then
    { archivo_guardado := false, subida_intentada := false, envio_intentado := false,
      eliminacion_intentada := false, archivo_en_disco := false }
  else if e.subida_ok = false then
    { archivo_guardado := true, subida_intentada := true, envio_intentado := false,
      eliminacion_intentada := false, archivo_en_disco := true }
  else if e.envio_ok = false then
    { archivo_guardado := true, subida_intentada := true, envio_intentado := true,
      eliminacion_intentada := false, archivo_en_disco := true }
  else if e.eliminacion_ok then
    { archivo_guardado := true, subida_intentada := true, envio_intentado := true,
      eliminacion_intentada := true, archivo_en_disco := false }
  else
    { archivo_guardado := true, subida_intentada := true, envio_intentado := true,
      eliminacion_intentada := true, archivo_en_disco := true }

/-- Claim C4: for a frame whose local save succeeded, the deletion of the
temporary file is performed exactly when both the Azure upload and the backend
submission succeeded; on an upload failure the backend submission is never
attempted and the file remains on disk; on a submission failure the file
remains on disk; and the file is actually gone exactly when upload, submission
and the deletion itself all succeeded (a deletion failure is non-fatal and
leaves the file). -/
theorem evidencia_eliminacion_sii (e : EntornoEvidencia) (hg : e.guardado_ok = true) :
    ((procesar_imagen_con_detecciones e).eliminacion_intentada = true ↔
      (e.subida_ok = true ∧ e.envio_ok = true)) ∧
    ((procesar_imagen_con_detecciones e).envio_intentado = true ↔ e.subida_ok = true) ∧
    (e.subida_ok = false →
      (procesar_imagen_con_detecciones e).envio_intentado = false ∧
      (procesar_imagen_con_detecciones e).archivo_en_disco = true) ∧
    (e.subida_ok = true → e.envio_ok = false →
      (procesar_imagen_con_detecciones e).archivo_en_disco = true) ∧
    ((procesar_imagen_con_detecciones e).archivo_en_disco = false ↔
      (e.subida_ok = true ∧ e.envio_ok = true ∧ e.eliminacion_ok = true)) := by
  obtain ⟨g, su, en, el⟩ := e
  cases g
  · exact absurd hg (by simp)
  · cases su <;> cases en <;> cases el <;> decide

theorem evidencia_eliminacion_sii_testigo :
    (⟨true, true, false, true⟩ : EntornoEvidencia).guardado_ok = true ∧
    ((procesar_imagen_con_detecciones ⟨true, true, false, true⟩).archivo_en_disco = true ∧
      (procesar_imagen_con_detecciones ⟨true, true, false, true⟩).envio_intentado = true) :=
  ⟨rfl,
    (evidencia_eliminacion_sii ⟨true, true, false, true⟩ rfl).2.2.2.1 rfl rfl,
    ((evidencia_eliminacion_sii ⟨true, true, false, true⟩ rfl).2.1).mpr rfl⟩

end ModuloIsla
